import Mathlib

/-!
Shallow embedding of the `sqlx-tracing` crate: an observability shim that
wraps a database pool / connection / transaction and attaches tracing spans
to every database operation without changing query semantics.

The embedding follows the source files `src/lib.rs`, `src/span.rs`,
`src/pool.rs`, `src/connection.rs`, `src/transaction.rs`:

* `Attributes` mirrors the `Attributes` struct of `lib.rs`.
* `Arc` models `std::sync::Arc`: a reference-counted handle whose `clone`
  yields a handle to the same allocation (same `id`).
* `Span` is the span field schema built by the `instrument!` and
  `instrument_op!` macros of `span.rs`; a deferred (`tracing::field::Empty`)
  field is `none` until recorded.
* `SqlxError` models the external driver error type `sqlx::Error` with its
  variants; `record_error`, `record_one`, `record_optional` are the outcome
  recorder functions of `span.rs`.
* `exec_fut`, `exec_fut_rows`, `exec_fut_one`, `exec_fut_opt`, `exec_stream`
  are the five helper macros of `span.rs`.  The underlying driver call is a
  parameter (an `Except SqlxError` value for futures, a list of such values
  for streams).  The future-based helpers run the inspections inside
  `.instrument(span)`, hence `Span::current()` is the operation span there
  and the span is passed explicitly; the stream helper does not instrument
  the stream, so it takes the caller-side ambient span as a parameter
  (see `SpanAct` below for the precise enter/exit action trace).
* `Pool`, `PoolConnection`, `Connection`, `Transaction` are the carrier
  types of `lib.rs`, with lifecycle operations from `lib.rs`,
  `connection.rs`, `transaction.rs`, and the `sqlx::Executor` methods of
  all four surfaces (`pool.rs`, `connection.rs`, `transaction.rs`).
-/

/-- `Attributes` from `lib.rs`: identifying metadata and the two redaction
toggles, shared by a pool and everything derived from it. -/
structure Attributes where
  name : Option String
  host : Option String
  port : Option Nat
  database : Option String
  record_query_text : Bool
  record_error_details : Bool
  deriving DecidableEq

/-- `impl Default for Attributes` in `lib.rs`: empty identifying fields,
both recording toggles enabled. -/
def Attributes.default : Attributes :=
  { name := none
    host := none
    port := none
    database := none
    record_query_text := true
    record_error_details := true }

/-- Model of `std::sync::Arc`: `id` identifies the allocation, `val` its
contents.  Two handles are the same allocation exactly when their `id`s
agree. -/
structure Arc (α : Type) where
  id : Nat
  val : α
  deriving DecidableEq

/-- `Arc::clone` returns a handle to the same allocation: the clone is the
identical handle (same `id`, same contents). -/
def Arc.clone {α : Type} (a : Arc α) : Arc α := a

/-- The span field schema of the `instrument!` / `instrument_op!` macros in
`span.rs`.  A field that the macro initialises with
`::tracing::field::Empty` (deferred) or that is recorded with a `None`
value is `none` here. -/
structure Span where
  name : String
  dbName : Option String := none
  dbOperation : Option String := none
  dbQueryText : Option String := none
  affectedRows : Option Nat := none
  returnedRows : Option Nat := none
  statusCode : Option String := none
  sqlTable : Option String := none
  dbSystemName : Option String := none
  errorType : Option String := none
  errorMessage : Option String := none
  errorStacktrace : Option String := none
  netPeerName : Option String := none
  netPeerPort : Option Nat := none
  otelKind : Option String := none
  otelStatusCode : Option String := none
  otelStatusDescription : Option String := none
  peerService : Option String := none
  deriving DecidableEq

/-- The external driver error type `sqlx::Error` (external collaborator),
with the variants matched by `record_error` in `span.rs` plus the
remaining variants that fall under its `_` arm.  Payloads are the source /
message strings used by `Display` and `Debug`. -/
inductive SqlxError where
  | Configuration (msg : String)
  | Database (msg : String)
  | Io (msg : String)
  | Tls (msg : String)
  | Protocol (msg : String)
  | RowNotFound
  | TypeNotFound (type_name : String)
  | ColumnIndexOutOfBounds (index len : Nat)
  | ColumnNotFound (name : String)
  | ColumnDecode (index source : String)
  | Encode (source : String)
  | Decode (source : String)
  | AnyDriverError (source : String)
  | PoolTimedOut
  | PoolClosed
  | WorkerCrashed
  | Migrate (msg : String)
  deriving DecidableEq

/-- The `Display` rendering of `sqlx::Error` (what `err.to_string()`
returns in `record_error`). -/
def SqlxError.display : SqlxError → String
  | .Configuration msg => "error with configuration: " ++ msg
  | .Database msg => "error returned from database: " ++ msg
  | .Io msg => "error communicating with database: " ++ msg
  | .Tls msg => "error occurred while attempting to establish a TLS connection: " ++ msg
  | .Protocol msg => "encountered unexpected or invalid data: " ++ msg
  | .RowNotFound => "no rows returned by a query that expected to return at least one row"
  | .TypeNotFound tn => "type named " ++ tn ++ " not found"
  | .ColumnIndexOutOfBounds index len =>
      "column index out of bounds: the len is " ++ toString len ++
        ", but the index is " ++ toString index
  | .ColumnNotFound n => "no column found for name: " ++ n
  | .ColumnDecode index source =>
      "error occurred while decoding column " ++ index ++ ": " ++ source
  | .Encode source => "error occurred while encoding a value: " ++ source
  | .Decode source => "error occurred while decoding: " ++ source
  | .AnyDriverError source => "error in underlying driver: " ++ source
  | .PoolTimedOut => "pool timed out while waiting for an open connection"
  | .PoolClosed => "attempted to acquire a connection on a closed pool"
  | .WorkerCrashed => "attempted to communicate with a crashed background worker"
  | .Migrate msg => msg

/-- The `Debug` rendering of `sqlx::Error` (what `format!("{err:?}")`
returns in `record_error`). -/
def SqlxError.debug : SqlxError → String
  | .Configuration msg => "Configuration(" ++ msg ++ ")"
  | .Database msg => "Database(" ++ msg ++ ")"
  | .Io msg => "Io(" ++ msg ++ ")"
  | .Tls msg => "Tls(" ++ msg ++ ")"
  | .Protocol msg => "Protocol(" ++ msg ++ ")"
  | .RowNotFound => "RowNotFound"
  | .TypeNotFound tn => "TypeNotFound \x7b type_name: " ++ tn ++ " \x7d"
  | .ColumnIndexOutOfBounds index len =>
      "ColumnIndexOutOfBounds \x7b index: " ++ toString index ++
        ", len: " ++ toString len ++ " \x7d"
  | .ColumnNotFound n => "ColumnNotFound(" ++ n ++ ")"
  | .ColumnDecode index source =>
      "ColumnDecode \x7b index: " ++ index ++ ", source: " ++ source ++ " \x7d"
  | .Encode source => "Encode(" ++ source ++ ")"
  | .Decode source => "Decode(" ++ source ++ ")"
  | .AnyDriverError source => "AnyDriverError(" ++ source ++ ")"
  | .PoolTimedOut => "PoolTimedOut"
  | .PoolClosed => "PoolClosed"
  | .WorkerCrashed => "WorkerCrashed"
  | .Migrate msg => "Migrate(" ++ msg ++ ")"

/-- The `instrument!` macro of `span.rs`: the span for a SQL operation.
`SYSTEM` is the driver constant `DB::SYSTEM`.  `db.query.text` is recorded
as `record_query_text.then_some(statement)`; recording a `None` value
leaves the field empty.  All deferred fields stay empty. -/
def instrument (name statement : String) (attrs : Attributes) (SYSTEM : String) : Span :=
  { name := name
    dbName := attrs.database
    dbQueryText := if attrs.record_query_text then some statement else none
    dbSystemName := some SYSTEM
    netPeerName := attrs.host
    netPeerPort := attrs.port
    otelKind := some "client"
    peerService := attrs.name }

/-- The `instrument_op!` macro of `span.rs`: the span for a lifecycle
operation; same schema minus the SQL-specific fields (`db.operation`,
`db.query.text`, `db.response.*`, `db.sql.table`). -/
def instrument_op (name : String) (attrs : Attributes) (SYSTEM : String) : Span :=
  { name := name
    dbName := attrs.database
    dbSystemName := some SYSTEM
    netPeerName := attrs.host
    netPeerPort := attrs.port
    otelKind := some "client"
    peerService := attrs.name }

/-- `record_one` in `span.rs`: records `db.response.returned_rows = 1` in
the current span (the operation span, since the callers run it inside
`.instrument(span)`), ignoring the value. -/
def record_one (span : Span) : Span :=
  { span with returnedRows := some 1 }

/-- `record_optional` in `span.rs`: records `db.response.returned_rows`
as `1` if the optional value is present, else `0`. -/
def record_optional {ρ : Type} (value : Option ρ) (span : Span) : Span :=
  { span with returnedRows := some (if value.isSome then 1 else 0) }

/-- `record_error` in `span.rs`: marks the current span as an error
(`otel.status_code = "error"`), classifies the error as `"client"` for the
seven listed variants and `"server"` for every other variant (the `_`
arm), and, only when `record_details` is true, records the display message
as `otel.status_description` and `error.message` and the debug rendering
as `error.stacktrace`. -/
def record_error (err : SqlxError) (record_details : Bool) (span : Span) : Span :=
  let span0 := { span with otelStatusCode := some "error" }
  let span1 :=
    match err with
    | .ColumnIndexOutOfBounds _ _
    | .ColumnDecode _ _
    | .ColumnNotFound _
    | .Decode _
    | .Encode _
    | .RowNotFound
    | .TypeNotFound _ => { span0 with errorType := some "client" }
    | _ => { span0 with errorType := some "server" }
  if record_details then
    { span1 with
      otelStatusDescription := some err.display
      errorMessage := some err.display
      errorStacktrace := some err.debug }
  else span1

/-- Spec-side predicate (from the specification text, independent of
`record_error`): the seven error variants that the spec calls client
faults — column index out of bounds, column decode, column not found,
decode, encode, row not found, type not found. -/
def isClientFault : SqlxError → Bool
  | .ColumnIndexOutOfBounds _ _ => true
  | .ColumnDecode _ _ => true
  | .ColumnNotFound _ => true
  | .Decode _ => true
  | .Encode _ => true
  | .RowNotFound => true
  | .TypeNotFound _ => true
  | _ => false

/-- Result of a future-based instrumented call: the value handed back to
the caller and the operation span after the outcome was recorded. -/
structure FutOutcome (α : Type) where
  result : Except SqlxError α
  span : Span

/-- The `exec_fut!` macro of `span.rs` (describe, execute, prepare,
prepare_with): builds the span, awaits the driver future inside
`.instrument(span)`, and `inspect_err`s the outcome with `record_error`.
The driver outcome `fut` is returned to the caller unchanged. -/
def exec_fut {α : Type} (span_name sql : String) (attrs : Attributes) (SYSTEM : String)
    (fut : Except SqlxError α) : FutOutcome α :=
  let record_details := attrs.record_error_details
  let span := instrument span_name sql attrs SYSTEM
  { result := fut
    span :=
      match fut with
      | .ok _ => span
      | .error e => record_error e record_details span }

/-- The `exec_fut_rows!` macro of `span.rs` (fetch_all): like `exec_fut`
with span name `"sqlx.fetch_all"`, additionally recording
`db.response.returned_rows = res.len()` on success. -/
def exec_fut_rows {ρ : Type} (sql : String) (attrs : Attributes) (SYSTEM : String)
    (fut : Except SqlxError (List ρ)) : FutOutcome (List ρ) :=
  let record_details := attrs.record_error_details
  let span := instrument "sqlx.fetch_all" sql attrs SYSTEM
  { result := fut
    span :=
      match fut with
      | .ok res => { span with returnedRows := some res.length }
      | .error e => record_error e record_details span }

/-- The `exec_fut_one!` macro of `span.rs` (fetch_one): span name
`"sqlx.fetch_one"`, recording `record_one` on success. -/
def exec_fut_one {ρ : Type} (sql : String) (attrs : Attributes) (SYSTEM : String)
    (fut : Except SqlxError ρ) : FutOutcome ρ :=
  let record_details := attrs.record_error_details
  let span := instrument "sqlx.fetch_one" sql attrs SYSTEM
  { result := fut
    span :=
      match fut with
      | .ok _ => record_one span
      | .error e => record_error e record_details span }

/-- The `exec_fut_opt!` macro of `span.rs` (fetch_optional): span name
`"sqlx.fetch_optional"`, recording `record_optional` on success. -/
def exec_fut_opt {ρ : Type} (sql : String) (attrs : Attributes) (SYSTEM : String)
    (fut : Except SqlxError (Option ρ)) : FutOutcome (Option ρ) :=
  let record_details := attrs.record_error_details
  let span := instrument "sqlx.fetch_optional" sql attrs SYSTEM
  { result := fut
    span :=
      match fut with
      | .ok value => record_optional value span
      | .error e => record_error e record_details span }

/-- Result of a stream-based instrumented call: the items handed to the
caller, the operation span built by `instrument!`, and the caller-side
ambient span after the stream was driven to completion. -/
structure StreamOutcome (α : Type) where
  items : List (Except SqlxError α)
  span : Span
  ambient : Option Span

/-- The `exec_stream!` macro of `span.rs` (execute_many, fetch,
fetch_many).  The returned stream is the driver stream with an `inspect`
that enters the operation span and immediately drops the guard (the
`Entered` guard bound to `_enter` dies at the end of the `inspect`
closure), followed by an `inspect_err` that calls `record_error` via
`Span::current()`.  Because the guard is already dropped when
`inspect_err` runs, `Span::current()` there is the caller-side ambient
span (or the disabled null span when none is entered, in which case
recording is a no-op); the operation span itself is never written to.
The items reach the caller unchanged. -/
def exec_stream {α : Type} (span_name sql : String) (attrs : Attributes) (SYSTEM : String)
    (ambient : Option Span) (stream : List (Except SqlxError α)) : StreamOutcome α :=
  let record_details := attrs.record_error_details
  let span := instrument span_name sql attrs SYSTEM
  { items := stream
    span := span
    ambient :=
      stream.foldl
        (fun amb item =>
          match item with
          | .ok _ => amb
          | .error e => amb.map (record_error e record_details))
        ambient }

/-!
Enter/exit action traces.  `tracing` keeps an ambient stack of entered
spans; `Span::current()` is the top of that stack.  To settle the scoping
claims we read the sequence of primitive span actions off the source and
interpret it over an explicit stack of span identifiers.
-/

/-- Primitive span-context actions performed while an instrumented piece of
code runs. -/
inductive SpanAct where
  | yieldItem (isErr : Bool)
  | enterSpan
  | exitSpan
  | recordErr
  | attemptAcquire
  deriving DecidableEq

/-- Effect of one action on the ambient stack of entered span ids; `sid`
is the id of the operation span. -/
def actStep (sid : Nat) (st : List Nat) : SpanAct → List Nat
  | .enterSpan => sid :: st
  | .exitSpan => st.tail
  | _ => st

/-- Interpret a list of actions over an initial stack, pairing every action
with the span that is current (`Span::current()`, the top of the stack) at
the moment the action runs. -/
def actTrace (sid : Nat) (st : List Nat) : List SpanAct → List (SpanAct × Option Nat)
  | [] => []
  | a :: rest => (a, st.head?) :: actTrace sid (actStep sid st a) rest

/-- The per-item action sequence of the stream pipeline built by
`exec_stream!` in `span.rs`, read off the source: the inner driver stream
yields the item (this is also where the suspended driver work resumes);
then the `inspect` closure runs `let _enter = span.enter();` — the
`Entered` guard bound to `_enter` is dropped at the closing brace of that
same closure — and finally, for an `Err` item, the `inspect_err` closure
calls `record_error`. -/
def exec_stream_item_acts (isErr : Bool) : List SpanAct :=
  [.yieldItem isErr, .enterSpan, .exitSpan] ++ if isErr then [.recordErr] else []

/-- The action sequence of `Pool::try_acquire` in `lib.rs`, read off the
source: `let _enter = span.enter();` at function scope, then the
synchronous `self.inner.try_acquire()` attempt, then the guard drops at
the end of the function. -/
def try_acquire_acts : List SpanAct :=
  [.enterSpan, .attemptAcquire, .exitSpan]

/-!  Carrier types (`lib.rs`) and their lifecycle operations.  The driver
handle inside each carrier is a type parameter; the underlying driver
call result is a parameter of each operation.  Lifecycle operations
return the caller-visible result together with the list of dedicated
spans they create. -/

/-- `Pool` from `lib.rs`: the wrapped `sqlx::Pool` plus the shared
`Arc<Attributes>`. -/
structure Pool (π : Type) where
  inner : π
  attributes : Arc Attributes

/-- `PoolConnection` from `lib.rs`: a checked-out driver connection plus
the shared `Arc<Attributes>`. -/
structure PoolConnection (κ : Type) where
  inner : κ
  attributes : Arc Attributes

/-- `Connection` from `lib.rs`: a mutable borrow of a driver connection
plus the shared `Arc<Attributes>`. -/
structure Connection (χ : Type) where
  inner : χ
  attributes : Arc Attributes

/-- `Transaction` from `lib.rs`: an in-progress driver transaction or
savepoint plus the shared `Arc<Attributes>`. -/
structure Transaction (τ : Type) where
  inner : τ
  attributes : Arc Attributes

/-- `Pool::begin` in `lib.rs`: span `"sqlx.transaction.begin"`, maps the
driver result into a `Transaction` holding `self.attributes.clone()`, and
`inspect_err`s with `record_error`. -/
def Pool.begin {π τ : Type} (p : Pool π) (SYSTEM : String)
    (driver : Except SqlxError τ) : Except SqlxError (Transaction τ) × List Span :=
  let attrs := p.attributes.val
  let record_details := attrs.record_error_details
  let span := instrument_op "sqlx.transaction.begin" attrs SYSTEM
  (driver.map fun inner => { inner := inner, attributes := p.attributes.clone },
    [match driver with
     | .ok _ => span
     | .error e => record_error e record_details span])

/-- `Pool::acquire` in `lib.rs`: span `"sqlx.pool.acquire"`, maps the
driver result into a `PoolConnection` holding `self.attributes.clone()`,
and `inspect_err`s with `record_error`. -/
def Pool.acquire {π κ : Type} (p : Pool π) (SYSTEM : String)
    (driver : Except SqlxError κ) : Except SqlxError (PoolConnection κ) × List Span :=
  let attrs := p.attributes.val
  let record_details := attrs.record_error_details
  let span := instrument_op "sqlx.pool.acquire" attrs SYSTEM
  (driver.map fun inner => { inner := inner, attributes := p.attributes.clone },
    [match driver with
     | .ok _ => span
     | .error e => record_error e record_details span])

/-- `Pool::try_acquire` in `lib.rs`: synchronous; builds the
`"sqlx.pool.acquire"` span, enters it for the duration of the function,
and maps the driver's optional connection into a `PoolConnection` holding
`self.attributes.clone()`.  `driver` is what `self.inner.try_acquire()`
returns: `none` when no idle connection exists and the pool is at
capacity. -/
def Pool.try_acquire {π κ : Type} (p : Pool π) (SYSTEM : String)
    (driver : Option κ) : Option (PoolConnection κ) × Span :=
  let span := instrument_op "sqlx.pool.acquire" p.attributes.val SYSTEM
  (driver.map fun inner => { inner := inner, attributes := p.attributes.clone }, span)

/-- `Pool::close` in `lib.rs`: span `"sqlx.pool.close"` around the driver
close; no outcome recording. -/
def Pool.close {π : Type} (p : Pool π) (SYSTEM : String) : Unit × List Span :=
  ((), [instrument_op "sqlx.pool.close" p.attributes.val SYSTEM])

/-- `PoolConnection::ping` in `connection.rs`: span
`"sqlx.connection.ping"`, driver result returned unchanged,
`inspect_err`ed with `record_error`. -/
def PoolConnection.ping {κ : Type} (c : PoolConnection κ) (SYSTEM : String)
    (driver : Except SqlxError Unit) : Except SqlxError Unit × List Span :=
  let attrs := c.attributes.val
  let record_details := attrs.record_error_details
  let span := instrument_op "sqlx.connection.ping" attrs SYSTEM
  (driver,
    [match driver with
     | .ok _ => span
     | .error e => record_error e record_details span])

/-- `PoolConnection::begin` in `connection.rs`: span
`"sqlx.transaction.begin"`, maps the driver result into a `Transaction`
holding `self.attributes.clone()`, `inspect_err`ed with `record_error`. -/
def PoolConnection.begin {κ τ : Type} (c : PoolConnection κ) (SYSTEM : String)
    (driver : Except SqlxError τ) : Except SqlxError (Transaction τ) × List Span :=
  let attrs := c.attributes.val
  let record_details := attrs.record_error_details
  let span := instrument_op "sqlx.transaction.begin" attrs SYSTEM
  (driver.map fun inner => { inner := inner, attributes := c.attributes.clone },
    [match driver with
     | .ok _ => span
     | .error e => record_error e record_details span])

/-- `Transaction::executor` in `transaction.rs`: builds a `Connection`
from the reborrowed inner driver connection (`&mut *self.inner`, modelled
by `deref`) and `self.attributes.clone()`. -/
def Transaction.executor {τ χ : Type} (deref : τ → χ) (tx : Transaction τ) : Connection χ :=
  { inner := deref tx.inner, attributes := tx.attributes.clone }

/-- `Transaction::commit` in `transaction.rs`: consumes the transaction
and proxies `self.inner.commit().await` directly — no span is created,
the driver result is returned unchanged. -/
def Transaction.commit {τ : Type} (_tx : Transaction τ)
    (driver : Except SqlxError Unit) : Except SqlxError Unit × List Span :=
  (driver, [])

/-- `Transaction::rollback` in `transaction.rs`: consumes the transaction
and proxies `self.inner.rollback().await` directly — no span is created,
the driver result is returned unchanged. -/
def Transaction.rollback {τ : Type} (_tx : Transaction τ)
    (driver : Except SqlxError Unit) : Except SqlxError Unit × List Span :=
  (driver, [])

/-!  The `sqlx::Executor` surface.  Each of the four impl blocks —
`impl Executor for &Pool` (`pool.rs`), `impl Executor for &mut
PoolConnection` and `impl Executor for &mut Connection`
(`connection.rs`), `impl Executor for &mut Transaction`
(`transaction.rs`) — implements every method as a single invocation of
the corresponding helper macro with the operation's span name, the SQL
text, and the carrier's attributes; the wrapped driver call is the
macro's future/stream argument and is a parameter here.  Type variables:
`δ` = `Describe<DB>`, `ξ` = `DB::QueryResult`, `ρ` = `DB::Row`,
`σ` = `DB::Statement` (for `prepare_with`, the `parameters` slice is
passed only to the driver call and is part of the `driver` outcome). -/

/-- `describe` on `&Pool` (`pool.rs`). -/
def Pool.describe {π δ : Type} (p : Pool π) (sql SYSTEM : String)
    (driver : Except SqlxError δ) : FutOutcome δ :=
  exec_fut "sqlx.describe" sql p.attributes.val SYSTEM driver

/-- `execute` on `&Pool` (`pool.rs`). -/
def Pool.execute {π ξ : Type} (p : Pool π) (sql SYSTEM : String)
    (driver : Except SqlxError ξ) : FutOutcome ξ :=
  exec_fut "sqlx.execute" sql p.attributes.val SYSTEM driver

/-- `execute_many` on `&Pool` (`pool.rs`). -/
def Pool.execute_many {π ξ : Type} (p : Pool π) (sql SYSTEM : String)
    (ambient : Option Span) (driver : List (Except SqlxError ξ)) : StreamOutcome ξ :=
  exec_stream "sqlx.execute_many" sql p.attributes.val SYSTEM ambient driver

/-- `fetch` on `&Pool` (`pool.rs`). -/
def Pool.fetch {π ρ : Type} (p : Pool π) (sql SYSTEM : String)
    (ambient : Option Span) (driver : List (Except SqlxError ρ)) : StreamOutcome ρ :=
  exec_stream "sqlx.fetch" sql p.attributes.val SYSTEM ambient driver

/-- `fetch_all` on `&Pool` (`pool.rs`). -/
def Pool.fetch_all {π ρ : Type} (p : Pool π) (sql SYSTEM : String)
    (driver : Except SqlxError (List ρ)) : FutOutcome (List ρ) :=
  exec_fut_rows sql p.attributes.val SYSTEM driver

/-- `fetch_many` on `&Pool` (`pool.rs`); items are
`Either<QueryResult, Row>`. -/
def Pool.fetch_many {π ξ ρ : Type} (p : Pool π) (sql SYSTEM : String)
    (ambient : Option Span) (driver : List (Except SqlxError (ξ ⊕ ρ))) :
    StreamOutcome (ξ ⊕ ρ) :=
  exec_stream "sqlx.fetch_many" sql p.attributes.val SYSTEM ambient driver

/-- `fetch_one` on `&Pool` (`pool.rs`). -/
def Pool.fetch_one {π ρ : Type} (p : Pool π) (sql SYSTEM : String)
    (driver : Except SqlxError ρ) : FutOutcome ρ :=
  exec_fut_one sql p.attributes.val SYSTEM driver

/-- `fetch_optional` on `&Pool` (`pool.rs`). -/
def Pool.fetch_optional {π ρ : Type} (p : Pool π) (sql SYSTEM : String)
    (driver : Except SqlxError (Option ρ)) : FutOutcome (Option ρ) :=
  exec_fut_opt sql p.attributes.val SYSTEM driver

/-- `prepare` on `&Pool` (`pool.rs`). -/
def Pool.prepare {π σ : Type} (p : Pool π) (sql SYSTEM : String)
    (driver : Except SqlxError σ) : FutOutcome σ :=
  exec_fut "sqlx.prepare" sql p.attributes.val SYSTEM driver

/-- `prepare_with` on `&Pool` (`pool.rs`). -/
def Pool.prepare_with {π σ : Type} (p : Pool π) (sql SYSTEM : String)
    (driver : Except SqlxError σ) : FutOutcome σ :=
  exec_fut "sqlx.prepare_with" sql p.attributes.val SYSTEM driver

/-- `describe` on `&mut PoolConnection` (`connection.rs`). -/
def PoolConnection.describe {κ δ : Type} (c : PoolConnection κ) (sql SYSTEM : String)
    (driver : Except SqlxError δ) : FutOutcome δ :=
  exec_fut "sqlx.describe" sql c.attributes.val SYSTEM driver

/-- `execute` on `&mut PoolConnection` (`connection.rs`). -/
def PoolConnection.execute {κ ξ : Type} (c : PoolConnection κ) (sql SYSTEM : String)
    (driver : Except SqlxError ξ) : FutOutcome ξ :=
  exec_fut "sqlx.execute" sql c.attributes.val SYSTEM driver

/-- `execute_many` on `&mut PoolConnection` (`connection.rs`). -/
def PoolConnection.execute_many {κ ξ : Type} (c : PoolConnection κ) (sql SYSTEM : String)
    (ambient : Option Span) (driver : List (Except SqlxError ξ)) : StreamOutcome ξ :=
  exec_stream "sqlx.execute_many" sql c.attributes.val SYSTEM ambient driver

/-- `fetch` on `&mut PoolConnection` (`connection.rs`). -/
def PoolConnection.fetch {κ ρ : Type} (c : PoolConnection κ) (sql SYSTEM : String)
    (ambient : Option Span) (driver : List (Except SqlxError ρ)) : StreamOutcome ρ :=
  exec_stream "sqlx.fetch" sql c.attributes.val SYSTEM ambient driver

/-- `fetch_all` on `&mut PoolConnection` (`connection.rs`). -/
def PoolConnection.fetch_all {κ ρ : Type} (c : PoolConnection κ) (sql SYSTEM : String)
    (driver : Except SqlxError (List ρ)) : FutOutcome (List ρ) :=
  exec_fut_rows sql c.attributes.val SYSTEM driver

/-- `fetch_many` on `&mut PoolConnection` (`connection.rs`). -/
def PoolConnection.fetch_many {κ ξ ρ : Type} (c : PoolConnection κ) (sql SYSTEM : String)
    (ambient : Option Span) (driver : List (Except SqlxError (ξ ⊕ ρ))) :
    StreamOutcome (ξ ⊕ ρ) :=
  exec_stream "sqlx.fetch_many" sql c.attributes.val SYSTEM ambient driver

/-- `fetch_one` on `&mut PoolConnection` (`connection.rs`). -/
def PoolConnection.fetch_one {κ ρ : Type} (c : PoolConnection κ) (sql SYSTEM : String)
    (driver : Except SqlxError ρ) : FutOutcome ρ :=
  exec_fut_one sql c.attributes.val SYSTEM driver

/-- `fetch_optional` on `&mut PoolConnection` (`connection.rs`). -/
def PoolConnection.fetch_optional {κ ρ : Type} (c : PoolConnection κ) (sql SYSTEM : String)
    (driver : Except SqlxError (Option ρ)) : FutOutcome (Option ρ) :=
  exec_fut_opt sql c.attributes.val SYSTEM driver

/-- `prepare` on `&mut PoolConnection` (`connection.rs`). -/
def PoolConnection.prepare {κ σ : Type} (c : PoolConnection κ) (sql SYSTEM : String)
    (driver : Except SqlxError σ) : FutOutcome σ :=
  exec_fut "sqlx.prepare" sql c.attributes.val SYSTEM driver

/-- `prepare_with` on `&mut PoolConnection` (`connection.rs`). -/
def PoolConnection.prepare_with {κ σ : Type} (c : PoolConnection κ) (sql SYSTEM : String)
    (driver : Except SqlxError σ) : FutOutcome σ :=
  exec_fut "sqlx.prepare_with" sql c.attributes.val SYSTEM driver

/-- `describe` on `&mut Connection` (`connection.rs`). -/
def Connection.describe {χ δ : Type} (c : Connection χ) (sql SYSTEM : String)
    (driver : Except SqlxError δ) : FutOutcome δ :=
  exec_fut "sqlx.describe" sql c.attributes.val SYSTEM driver

/-- `execute` on `&mut Connection` (`connection.rs`). -/
def Connection.execute {χ ξ : Type} (c : Connection χ) (sql SYSTEM : String)
    (driver : Except SqlxError ξ) : FutOutcome ξ :=
  exec_fut "sqlx.execute" sql c.attributes.val SYSTEM driver

/-- `execute_many` on `&mut Connection` (`connection.rs`). -/
def Connection.execute_many {χ ξ : Type} (c : Connection χ) (sql SYSTEM : String)
    (ambient : Option Span) (driver : List (Except SqlxError ξ)) : StreamOutcome ξ :=
  exec_stream "sqlx.execute_many" sql c.attributes.val SYSTEM ambient driver

/-- `fetch` on `&mut Connection` (`connection.rs`). -/
def Connection.fetch {χ ρ : Type} (c : Connection χ) (sql SYSTEM : String)
    (ambient : Option Span) (driver : List (Except SqlxError ρ)) : StreamOutcome ρ :=
  exec_stream "sqlx.fetch" sql c.attributes.val SYSTEM ambient driver

/-- `fetch_all` on `&mut Connection` (`connection.rs`). -/
def Connection.fetch_all {χ ρ : Type} (c : Connection χ) (sql SYSTEM : String)
    (driver : Except SqlxError (List ρ)) : FutOutcome (List ρ) :=
  exec_fut_rows sql c.attributes.val SYSTEM driver

/-- `fetch_many` on `&mut Connection` (`connection.rs`). -/
def Connection.fetch_many {χ ξ ρ : Type} (c : Connection χ) (sql SYSTEM : String)
    (ambient : Option Span) (driver : List (Except SqlxError (ξ ⊕ ρ))) :
    StreamOutcome (ξ ⊕ ρ) :=
  exec_stream "sqlx.fetch_many" sql c.attributes.val SYSTEM ambient driver

/-- `fetch_one` on `&mut Connection` (`connection.rs`). -/
def Connection.fetch_one {χ ρ : Type} (c : Connection χ) (sql SYSTEM : String)
    (driver : Except SqlxError ρ) : FutOutcome ρ :=
  exec_fut_one sql c.attributes.val SYSTEM driver

/-- `fetch_optional` on `&mut Connection` (`connection.rs`). -/
def Connection.fetch_optional {χ ρ : Type} (c : Connection χ) (sql SYSTEM : String)
    (driver : Except SqlxError (Option ρ)) : FutOutcome (Option ρ) :=
  exec_fut_opt sql c.attributes.val SYSTEM driver

/-- `prepare` on `&mut Connection` (`connection.rs`). -/
def Connection.prepare {χ σ : Type} (c : Connection χ) (sql SYSTEM : String)
    (driver : Except SqlxError σ) : FutOutcome σ :=
  exec_fut "sqlx.prepare" sql c.attributes.val SYSTEM driver

/-- `prepare_with` on `&mut Connection` (`connection.rs`). -/
def Connection.prepare_with {χ σ : Type} (c : Connection χ) (sql SYSTEM : String)
    (driver : Except SqlxError σ) : FutOutcome σ :=
  exec_fut "sqlx.prepare_with" sql c.attributes.val SYSTEM driver

/-- `describe` on `&mut Transaction` (`transaction.rs`); the future is
created inside the instrumented async block, which does not change the
outcome or the recording. -/
def Transaction.describe {τ δ : Type} (tx : Transaction τ) (sql SYSTEM : String)
    (driver : Except SqlxError δ) : FutOutcome δ :=
  exec_fut "sqlx.describe" sql tx.attributes.val SYSTEM driver

/-- `execute` on `&mut Transaction` (`transaction.rs`). -/
def Transaction.execute {τ ξ : Type} (tx : Transaction τ) (sql SYSTEM : String)
    (driver : Except SqlxError ξ) : FutOutcome ξ :=
  exec_fut "sqlx.execute" sql tx.attributes.val SYSTEM driver

/-- `execute_many` on `&mut Transaction` (`transaction.rs`). -/
def Transaction.execute_many {τ ξ : Type} (tx : Transaction τ) (sql SYSTEM : String)
    (ambient : Option Span) (driver : List (Except SqlxError ξ)) : StreamOutcome ξ :=
  exec_stream "sqlx.execute_many" sql tx.attributes.val SYSTEM ambient driver

/-- `fetch` on `&mut Transaction` (`transaction.rs`). -/
def Transaction.fetch {τ ρ : Type} (tx : Transaction τ) (sql SYSTEM : String)
    (ambient : Option Span) (driver : List (Except SqlxError ρ)) : StreamOutcome ρ :=
  exec_stream "sqlx.fetch" sql tx.attributes.val SYSTEM ambient driver

/-- `fetch_all` on `&mut Transaction` (`transaction.rs`). -/
def Transaction.fetch_all {τ ρ : Type} (tx : Transaction τ) (sql SYSTEM : String)
    (driver : Except SqlxError (List ρ)) : FutOutcome (List ρ) :=
  exec_fut_rows sql tx.attributes.val SYSTEM driver

/-- `fetch_many` on `&mut Transaction` (`transaction.rs`). -/
def Transaction.fetch_many {τ ξ ρ : Type} (tx : Transaction τ) (sql SYSTEM : String)
    (ambient : Option Span) (driver : List (Except SqlxError (ξ ⊕ ρ))) :
    StreamOutcome (ξ ⊕ ρ) :=
  exec_stream "sqlx.fetch_many" sql tx.attributes.val SYSTEM ambient driver

/-- `fetch_one` on `&mut Transaction` (`transaction.rs`). -/
def Transaction.fetch_one {τ ρ : Type} (tx : Transaction τ) (sql SYSTEM : String)
    (driver : Except SqlxError ρ) : FutOutcome ρ :=
  exec_fut_one sql tx.attributes.val SYSTEM driver

/-- `fetch_optional` on `&mut Transaction` (`transaction.rs`). -/
def Transaction.fetch_optional {τ ρ : Type} (tx : Transaction τ) (sql SYSTEM : String)
    (driver : Except SqlxError (Option ρ)) : FutOutcome (Option ρ) :=
  exec_fut_opt sql tx.attributes.val SYSTEM driver

/-- `prepare` on `&mut Transaction` (`transaction.rs`). -/
def Transaction.prepare {τ σ : Type} (tx : Transaction τ) (sql SYSTEM : String)
    (driver : Except SqlxError σ) : FutOutcome σ :=
  exec_fut "sqlx.prepare" sql tx.attributes.val SYSTEM driver

/-- `prepare_with` on `&mut Transaction` (`transaction.rs`). -/
def Transaction.prepare_with {τ σ : Type} (tx : Transaction τ) (sql SYSTEM : String)
    (driver : Except SqlxError σ) : FutOutcome σ :=
  exec_fut "sqlx.prepare_with" sql tx.attributes.val SYSTEM driver

/-!  Helper lemmas about the outcome recorder. -/

/-- `record_error` always marks the span with `otel.status_code = "error"`. -/
theorem record_error_otelStatusCode (e : SqlxError) (d : Bool) (s : Span) :
    (record_error e d s).otelStatusCode = some "error" := by
  cases e <;> cases d <;> rfl

/-- `record_error` never changes the span name. -/
theorem record_error_name (e : SqlxError) (d : Bool) (s : Span) :
    (record_error e d s).name = s.name := by
  cases e <;> cases d <;> rfl

/-- `record_error` never touches `db.query.text`. -/
theorem record_error_dbQueryText (e : SqlxError) (d : Bool) (s : Span) :
    (record_error e d s).dbQueryText = s.dbQueryText := by
  cases e <;> cases d <;> rfl

/-- `record_error` never touches `db.response.returned_rows`. -/
theorem record_error_returnedRows (e : SqlxError) (d : Bool) (s : Span) :
    (record_error e d s).returnedRows = s.returnedRows := by
  cases e <;> cases d <;> rfl

/-- `record_error` never touches `db.response.affected_rows`. -/
theorem record_error_affectedRows (e : SqlxError) (d : Bool) (s : Span) :
    (record_error e d s).affectedRows = s.affectedRows := by
  cases e <;> cases d <;> rfl

/-- `record_error` always populates `error.type`. -/
theorem record_error_errorType (e : SqlxError) (d : Bool) (s : Span) :
    (record_error e d s).errorType =
      some (if isClientFault e then "client" else "server") := by
  cases e <;> cases d <;> rfl

/-- Every error field a successful operation leaves untouched: no status,
no description, no classification, no message, no stacktrace. -/
def errorFieldsEmpty (s : Span) : Prop :=
  s.otelStatusCode = none ∧ s.otelStatusDescription = none ∧
    s.errorType = none ∧ s.errorMessage = none ∧ s.errorStacktrace = none

/-- Claim C1: for every instrumented operation (describe, execute,
execute_many, fetch, fetch_all, fetch_many, fetch_one, fetch_optional,
prepare, prepare_with) on every carrier surface (`&Pool`,
`&mut PoolConnection`, `&mut Connection`, `&mut Transaction`), the
result or error handed back to the caller is exactly the undecorated
driver outcome: the instrumentation observes via inspect / inspect_err
and never intercepts, alters or re-wraps the value. -/
theorem pure_decoration_all_surfaces
    {π κ χ τ δ ξ ρ σ : Type}
    (p : Pool π) (c : PoolConnection κ) (b : Connection χ) (tx : Transaction τ)
    (sql SYSTEM : String) (amb : Option Span)
    (dd : Except SqlxError δ) (dx : Except SqlxError ξ) (dr : Except SqlxError ρ)
    (dl : Except SqlxError (List ρ)) (dw : Except SqlxError (Option ρ))
    (ds : Except SqlxError σ)
    (sx : List (Except SqlxError ξ)) (sr : List (Except SqlxError ρ))
    (sm : List (Except SqlxError (ξ ⊕ ρ))) :
    ((p.describe sql SYSTEM dd).result = dd ∧
     (p.execute sql SYSTEM dx).result = dx ∧
     (p.execute_many sql SYSTEM amb sx).items = sx ∧
     (p.fetch sql SYSTEM amb sr).items = sr ∧
     (p.fetch_all sql SYSTEM dl).result = dl ∧
     (p.fetch_many sql SYSTEM amb sm).items = sm ∧
     (p.fetch_one sql SYSTEM dr).result = dr ∧
     (p.fetch_optional sql SYSTEM dw).result = dw ∧
     (p.prepare sql SYSTEM ds).result = ds ∧
     (p.prepare_with sql SYSTEM ds).result = ds) ∧
    ((c.describe sql SYSTEM dd).result = dd ∧
     (c.execute sql SYSTEM dx).result = dx ∧
     (c.execute_many sql SYSTEM amb sx).items = sx ∧
     (c.fetch sql SYSTEM amb sr).items = sr ∧
     (c.fetch_all sql SYSTEM dl).result = dl ∧
     (c.fetch_many sql SYSTEM amb sm).items = sm ∧
     (c.fetch_one sql SYSTEM dr).result = dr ∧
     (c.fetch_optional sql SYSTEM dw).result = dw ∧
     (c.prepare sql SYSTEM ds).result = ds ∧
     (c.prepare_with sql SYSTEM ds).result = ds) ∧
    ((b.describe sql SYSTEM dd).result = dd ∧
     (b.execute sql SYSTEM dx).result = dx ∧
     (b.execute_many sql SYSTEM amb sx).items = sx ∧
     (b.fetch sql SYSTEM amb sr).items = sr ∧
     (b.fetch_all sql SYSTEM dl).result = dl ∧
     (b.fetch_many sql SYSTEM amb sm).items = sm ∧
     (b.fetch_one sql SYSTEM dr).result = dr ∧
     (b.fetch_optional sql SYSTEM dw).result = dw ∧
     (b.prepare sql SYSTEM ds).result = ds ∧
     (b.prepare_with sql SYSTEM ds).result = ds) ∧
    ((tx.describe sql SYSTEM dd).result = dd ∧
     (tx.execute sql SYSTEM dx).result = dx ∧
     (tx.execute_many sql SYSTEM amb sx).items = sx ∧
     (tx.fetch sql SYSTEM amb sr).items = sr ∧
     (tx.fetch_all sql SYSTEM dl).result = dl ∧
     (tx.fetch_many sql SYSTEM amb sm).items = sm ∧
     (tx.fetch_one sql SYSTEM dr).result = dr ∧
     (tx.fetch_optional sql SYSTEM dw).result = dw ∧
     (tx.prepare sql SYSTEM ds).result = ds ∧
     (tx.prepare_with sql SYSTEM ds).result = ds) :=
  ⟨⟨rfl, rfl, rfl, rfl, rfl, rfl, rfl, rfl, rfl, rfl⟩,
   ⟨rfl, rfl, rfl, rfl, rfl, rfl, rfl, rfl, rfl, rfl⟩,
   ⟨rfl, rfl, rfl, rfl, rfl, rfl, rfl, rfl, rfl, rfl⟩,
   ⟨rfl, rfl, rfl, rfl, rfl, rfl, rfl, rfl, rfl, rfl⟩⟩

/-- Claim C2: `record_error` classifies every error into exactly two
buckets as a fixed partition over the driver error variants: the seven
variants ColumnIndexOutOfBounds, ColumnDecode, ColumnNotFound, Decode,
Encode, RowNotFound and TypeNotFound (the spec-side predicate
`isClientFault`) get `error.type = "client"`, every other variant gets
`error.type = "server"`. -/
theorem error_type_fixed_partition (e : SqlxError) (d : Bool) (s : Span) :
    ((record_error e d s).errorType = some "client" ↔ isClientFault e = true) ∧
    ((record_error e d s).errorType = some "server" ↔ isClientFault e = false) := by
  cases e <;> cases d <;> simp [record_error, isClientFault]

/-- Claim C3: on every failure the recorder sets
`otel.status_code = "error"` unconditionally; with the "record error
details" toggle off, a failing operation span (built by `instrument`)
carries `error.type` and `otel.status_code` but no `error.message`,
`otel.status_description` or `error.stacktrace`; with the toggle on, all
three are populated — the display-form message for both `error.message`
and `otel.status_description`, the debug rendering for
`error.stacktrace`. -/
theorem record_error_detail_toggle (e : SqlxError) (d : Bool)
    (n sql SYSTEM : String) (attrs : Attributes) :
    (record_error e d (instrument n sql attrs SYSTEM)).otelStatusCode = some "error" ∧
    ((record_error e false (instrument n sql attrs SYSTEM)).errorType.isSome = true ∧
     (record_error e false (instrument n sql attrs SYSTEM)).errorMessage = none ∧
     (record_error e false (instrument n sql attrs SYSTEM)).otelStatusDescription = none ∧
     (record_error e false (instrument n sql attrs SYSTEM)).errorStacktrace = none) ∧
    ((record_error e true (instrument n sql attrs SYSTEM)).errorMessage = some e.display ∧
     (record_error e true (instrument n sql attrs SYSTEM)).otelStatusDescription = some e.display ∧
     (record_error e true (instrument n sql attrs SYSTEM)).errorStacktrace = some e.debug) := by
  refine ⟨record_error_otelStatusCode e d _, ⟨?_, ?_, ?_, ?_⟩, ?_, ?_, ?_⟩ <;>
    cases e <;> rfl

/-- Claim C4: the `db.query.text` field of every SQL-operation span is
the SQL text exactly when the "record query text" toggle is on, and
empty when the toggle is off — for every operation shape and every
outcome, the literal SQL text never reaches the span when the toggle is
off. -/
theorem query_text_redaction {α ρ : Type} (n sql SYSTEM : String) (attrs : Attributes)
    (d : Except SqlxError α) (dl : Except SqlxError (List ρ))
    (dr : Except SqlxError ρ) (dw : Except SqlxError (Option ρ))
    (amb : Option Span) (st : List (Except SqlxError α)) :
    (exec_fut n sql attrs SYSTEM d).span.dbQueryText
        = (if attrs.record_query_text then some sql else none) ∧
    (exec_fut_rows sql attrs SYSTEM dl).span.dbQueryText
        = (if attrs.record_query_text then some sql else none) ∧
    (exec_fut_one sql attrs SYSTEM dr).span.dbQueryText
        = (if attrs.record_query_text then some sql else none) ∧
    (exec_fut_opt sql attrs SYSTEM dw).span.dbQueryText
        = (if attrs.record_query_text then some sql else none) ∧
    (exec_stream n sql attrs SYSTEM amb st).span.dbQueryText
        = (if attrs.record_query_text then some sql else none) := by
  refine ⟨?_, ?_, ?_, ?_, rfl⟩
  · cases d with
    | ok v => rfl
    | error e => exact (record_error_dbQueryText e _ _).trans rfl
  · cases dl with
    | ok v => rfl
    | error e => exact (record_error_dbQueryText e _ _).trans rfl
  · cases dr with
    | ok v => rfl
    | error e => exact (record_error_dbQueryText e _ _).trans rfl
  · cases dw with
    | ok v => rfl
    | error e => exact (record_error_dbQueryText e _ _).trans rfl

/-- Claim C5: on success, `fetch_all` records
`db.response.returned_rows` equal to the length of the returned row
vector, `fetch_one` records 1 unconditionally, `fetch_optional` records
1 for a present row and 0 for an absent one; the other operation shapes
(the `exec_fut` shape used by describe / execute / prepare /
prepare_with and the `exec_stream` shape used by execute_many / fetch /
fetch_many) leave both row-count fields empty for every outcome. -/
theorem row_count_recording {α ρ : Type} (n sql SYSTEM : String) (attrs : Attributes)
    (rows : List ρ) (row : ρ)
    (d : Except SqlxError α) (amb : Option Span) (st : List (Except SqlxError α)) :
    (exec_fut_rows sql attrs SYSTEM (Except.ok rows)).span.returnedRows = some rows.length ∧
    (exec_fut_one sql attrs SYSTEM (Except.ok row)).span.returnedRows = some 1 ∧
    (exec_fut_opt sql attrs SYSTEM (Except.ok (some row))).span.returnedRows = some 1 ∧
    (exec_fut_opt sql attrs SYSTEM (Except.ok (none : Option ρ))).span.returnedRows = some 0 ∧
    ((exec_fut n sql attrs SYSTEM d).span.returnedRows = none ∧
     (exec_fut n sql attrs SYSTEM d).span.affectedRows = none) ∧
    ((exec_stream n sql attrs SYSTEM amb st).span.returnedRows = none ∧
     (exec_stream n sql attrs SYSTEM amb st).span.affectedRows = none) := by
  refine ⟨rfl, rfl, rfl, rfl, ⟨?_, ?_⟩, rfl, rfl⟩
  · cases d with
    | ok v => rfl
    | error e => exact (record_error_returnedRows e _ _).trans rfl
  · cases d with
    | ok v => rfl
    | error e => exact (record_error_affectedRows e _ _).trans rfl

/-- Claim C6 (divergence, evaluated at the failing input): drive the
`exec_stream!` pipeline through one error element with no ambient span
entered (operation span id 1, initial stack empty).  The element is
produced with no span current, the span is entered and exited back to
back with nothing in between, and `record_error` then runs with no span
current — so outcome recording does not happen with the operation span
as the current span, and the operation span of a failing stream is never
marked as an error. -/
theorem stream_span_not_current_at_record :
    actTrace 1 [] (exec_stream_item_acts true) =
      [(SpanAct.yieldItem true, none), (SpanAct.enterSpan, none),
       (SpanAct.exitSpan, some 1), (SpanAct.recordErr, none)] ∧
    (exec_stream "sqlx.fetch" "SELECT 1" Attributes.default "postgresql" none
        ([Except.error SqlxError.RowNotFound] : List (Except SqlxError Unit))).span.otelStatusCode
      = none :=
  ⟨rfl, rfl⟩

/-- Claim C7: every carrier derived from a `Pool` — the `PoolConnection`
from `acquire` and `try_acquire`, the `Transaction` from `Pool::begin`
and `PoolConnection::begin`, the `Connection` from
`Transaction::executor` — holds the very same reference-counted
`Arc Attributes` handle as its parent (`Arc.clone` of the parent's
handle, which is the identical allocation, never a copy). -/
theorem attribute_set_sharing {π κ τ χ : Type} (p : Pool π) (c : PoolConnection κ)
    (SYSTEM : String) (dk : Except SqlxError κ) (dt dc : Except SqlxError τ)
    (k : κ) (deref : τ → χ) (tx : Transaction τ) :
    (∀ conn : PoolConnection κ,
      (Pool.acquire p SYSTEM dk).1 = Except.ok conn → conn.attributes = p.attributes) ∧
    (∀ conn : PoolConnection κ,
      (Pool.try_acquire p SYSTEM (some k)).1 = some conn → conn.attributes = p.attributes) ∧
    (∀ t : Transaction τ,
      (Pool.begin p SYSTEM dt).1 = Except.ok t → t.attributes = p.attributes) ∧
    (∀ t : Transaction τ,
      (PoolConnection.begin c SYSTEM dc).1 = Except.ok t → t.attributes = c.attributes) ∧
    (Transaction.executor deref tx).attributes = tx.attributes := by
  refine ⟨?_, ?_, ?_, ?_, rfl⟩
  · intro conn h
    cases dk with
    | ok a =>
        replace h : Except.ok (PoolConnection.mk a p.attributes) = Except.ok conn := h
        cases h
        rfl
    | error e => exact Except.noConfusion h
  · intro conn h
    replace h : some (PoolConnection.mk k p.attributes) = some conn := h
    cases h
    rfl
  · intro t h
    cases dt with
    | ok a =>
        replace h : Except.ok (Transaction.mk a p.attributes) = Except.ok t := h
        cases h
        rfl
    | error e => exact Except.noConfusion h
  · intro t h
    cases dc with
    | ok a =>
        replace h : Except.ok (Transaction.mk a c.attributes) = Except.ok t := h
        cases h
        rfl
    | error e => exact Except.noConfusion h

/-- Claim C7 witness: a concrete pool whose acquired connection shares
the pool's attribute handle. -/
theorem attribute_set_sharing_witness :
    (Pool.acquire (Pool.mk () (Arc.mk 0 Attributes.default)) "postgresql"
        (Except.ok ())).1
      = Except.ok (PoolConnection.mk () (Arc.mk 0 Attributes.default)) ∧
    (PoolConnection.mk () (Arc.mk 0 Attributes.default)).attributes
      = (Pool.mk () (Arc.mk 0 Attributes.default)).attributes :=
  ⟨rfl,
    (attribute_set_sharing (Pool.mk () (Arc.mk 0 Attributes.default))
        (PoolConnection.mk () (Arc.mk 0 Attributes.default)) "postgresql"
        (Except.ok ()) (Except.ok ()) (Except.ok ()) () id
        (Transaction.mk () (Arc.mk 0 Attributes.default))).1
      (PoolConnection.mk () (Arc.mk 0 Attributes.default)) rfl⟩

/-- Claim C8: `Transaction::commit` and `Transaction::rollback` proxy the
call directly to the driver, returning its result unchanged and creating
no span of their own, unlike begin, acquire, close and ping, which each
create exactly one dedicated span. -/
theorem commit_rollback_transparent {π κ τ : Type} (p : Pool π) (c : PoolConnection κ)
    (tx tr : Transaction τ) (SYSTEM : String) (d dr dp : Except SqlxError Unit)
    (dk : Except SqlxError κ) (dt : Except SqlxError τ) :
    Transaction.commit tx d = (d, ([] : List Span)) ∧
    Transaction.rollback tr dr = (dr, ([] : List Span)) ∧
    ((Pool.begin p SYSTEM dt).2.length = 1 ∧
     (Pool.acquire p SYSTEM dk).2.length = 1 ∧
     (Pool.close p SYSTEM).2.length = 1 ∧
     (PoolConnection.ping c SYSTEM dp).2.length = 1) :=
  ⟨rfl, rfl, rfl, rfl, rfl, rfl⟩

/-- Claim C9: `Pool::try_acquire` returns an absent value (not an error)
exactly when the driver has no idle connection to hand out, returns the
wrapped connection otherwise, its span carries the same
`"sqlx.pool.acquire"` name as the `acquire` span, and its action trace
enters the span, performs the synchronous attempt with the span current,
and exits immediately afterwards — no suspension occurs between enter
and exit. -/
theorem try_acquire_non_blocking {π κ : Type} (p : Pool π) (SYSTEM : String) (k : κ)
    (dk : Except SqlxError κ) :
    (Pool.try_acquire p SYSTEM (none : Option κ)).1 = none ∧
    (Pool.try_acquire p SYSTEM (some k)).1 = some (PoolConnection.mk k p.attributes) ∧
    (Pool.try_acquire p SYSTEM (none : Option κ)).2.name = "sqlx.pool.acquire" ∧
    (Pool.acquire p SYSTEM dk).2.map Span.name = ["sqlx.pool.acquire"] ∧
    actTrace 1 [] try_acquire_acts =
      [(SpanAct.enterSpan, none), (SpanAct.attemptAcquire, some 1),
       (SpanAct.exitSpan, some 1)] := by
  refine ⟨rfl, rfl, rfl, ?_, rfl⟩
  cases dk with
  | ok a => rfl
  | error e =>
      show [(record_error e _ _).name] = _
      rw [record_error_name]
      rfl
  
/-- Claim C10: a successful future-based operation records none of the
deferred error fields — `otel.status_code`, `otel.status_description`,
`error.type`, `error.message` and `error.stacktrace` all stay empty —
and `otel.status_code = "error"` appears exactly when the operation
fails; success is signalled only by the absence of a status. -/
theorem success_leaves_error_fields_empty {α ρ : Type} (n sql SYSTEM : String)
    (attrs : Attributes) (v : α) (rows : List ρ) (row : ρ) (w : Option ρ)
    (d : Except SqlxError α) (dl : Except SqlxError (List ρ))
    (dr : Except SqlxError ρ) (dw : Except SqlxError (Option ρ)) :
    (errorFieldsEmpty (exec_fut n sql attrs SYSTEM (Except.ok v)).span ∧
     errorFieldsEmpty (exec_fut_rows sql attrs SYSTEM (Except.ok rows)).span ∧
     errorFieldsEmpty (exec_fut_one sql attrs SYSTEM (Except.ok row)).span ∧
     errorFieldsEmpty (exec_fut_opt sql attrs SYSTEM (Except.ok w)).span) ∧
    ((exec_fut n sql attrs SYSTEM d).span.otelStatusCode
        = (match d with | .ok _ => none | .error _ => some "error") ∧
     (exec_fut_rows sql attrs SYSTEM dl).span.otelStatusCode
        = (match dl with | .ok _ => none | .error _ => some "error") ∧
     (exec_fut_one sql attrs SYSTEM dr).span.otelStatusCode
        = (match dr with | .ok _ => none | .error _ => some "error") ∧
     (exec_fut_opt sql attrs SYSTEM dw).span.otelStatusCode
        = (match dw with | .ok _ => none | .error _ => some "error")) := by
  refine ⟨⟨⟨rfl, rfl, rfl, rfl, rfl⟩, ⟨rfl, rfl, rfl, rfl, rfl⟩,
    ⟨rfl, rfl, rfl, rfl, rfl⟩, ⟨rfl, rfl, rfl, rfl, rfl⟩⟩, ?_, ?_, ?_, ?_⟩
  · cases d with
    | ok a => rfl
    | error e => exact record_error_otelStatusCode e _ _
  · cases dl with
    | ok a => rfl
    | error e => exact record_error_otelStatusCode e _ _
  · cases dr with
    | ok a => rfl
    | error e => exact record_error_otelStatusCode e _ _
  · cases dw with
    | ok a => rfl
    | error e => exact record_error_otelStatusCode e _ _
